import Mathlib

/-!
# hid-xiaomiff: a shallow embedding of `linux-kernel/hid-xiaomiff.c`

The driver is embedded as explicit state passing over a small kernel state:

* the HID device (`hid_device`): its parsed feature reports, the input devices
  that `hid_hw_start` registered, the driver-data pointer and whether the
  device is currently connected to the input layer;
* the heap of `kzalloc`-ed `xiaomiff_device` objects (addresses are indices,
  a freed cell stays freed);
* a trace of every kernel call and every store to a report buffer, in program
  order.

C `int` is a signed 32-bit integer: every `int` result goes through `wrap_int`.
Calls whose outcome the driver cannot determine (`hid_parse`, `hid_hw_start`,
`kzalloc`, `input_ff_create_memless`) take their outcome from an `Env`.
A C execution that dereferences NULL, a released object, or an invalid
pointer ends in a `Fault`.
-/

namespace XiaomiFF

/-! ## Constants -/

/-- `#define XIOAMIFF_MSG_LENGTH 6`. -/
def XIOAMIFF_MSG_LENGTH : Nat := 6

/-- The errno `ENODEV`. -/
def ENODEV : Int := 19

/-- The errno `ENOMEM`. -/
def ENOMEM : Int := 12

/-- Reduction of a mathematical integer to a C `int` (signed, 32 bits, two's complement). -/
def wrap_int (x : Int) : Int :=
  (x + 2147483648) % 4294967296 - 2147483648

/-! ## Data model -/

/-- The rumble part of `struct ff_effect`: two `__u16` magnitudes. -/
structure ff_rumble_effect where
  strong_magnitude : Nat
  weak_magnitude : Nat
  deriving DecidableEq, Repr

/-- A `struct hid_field`: the `__s32 value[]` array. The HID core allocates it
with `report_count` entries, so `report_count` is its length. -/
structure hid_field where
  value : List Int
  deriving DecidableEq, Repr

/-- The field `report_count` of a `struct hid_field`. -/
def hid_field.report_count (f : hid_field) : Nat := f.value.length

/-- A `struct hid_report`: the array `field[0 .. maxfield-1]`. -/
structure hid_report where
  field : List hid_field
  deriving DecidableEq, Repr

/-- The field `maxfield` of a `struct hid_report`. -/
def hid_report.maxfield (r : hid_report) : Nat := r.field.length

/-- The current contents of a report, as a set-report request transmits them. -/
def hid_report.payload (r : hid_report) : List (List Int) :=
  r.field.map hid_field.value

/-- A `struct hid_field *` into the feature report list of the device:
field number `index` of report number `report`. -/
structure FieldRef where
  report : Nat
  index : Nat
  deriving DecidableEq, Repr

/-- A `struct work_struct`: whether `INIT_WORK` has installed the handler
`xiaomiff_worker`, and whether the work is queued and has not started. -/
structure work_struct where
  func : Bool
  pending : Bool
  deriving DecidableEq, Repr

/-- The `struct xiaomiff_device`: `field` (`none` is NULL), `hdev` (`false` is
NULL, `true` points to the one device of the state) and `work`. -/
structure xiaomiff_device where
  field : Option FieldRef
  hdev : Bool
  work : work_struct
  deriving DecidableEq, Repr

/-- What `kzalloc` returns: an object of all-zero bytes. -/
def xiaomiff_device.zeroed : xiaomiff_device :=
  { field := none, hdev := false, work := { func := false, pending := false } }

/-- A `struct input_dev`: the `FF_RUMBLE` bit of `ffbit`, and the memless
force-feedback device, when one was created: its private data pointer, whose
play callback is `xiaomiff_play`. -/
structure input_dev where
  ffbit_rumble : Bool
  ff : Option Nat
  deriving DecidableEq, Repr

/-- A `struct hid_input`. -/
structure hid_input where
  input : input_dev
  deriving DecidableEq, Repr

/-- A `struct hid_device`: the feature reports
(`report_enum[HID_FEATURE_REPORT].report_list`), the list `inputs`, the driver
data (`none` is NULL) and whether the device is started (`hid_hw_start` done,
`hid_hw_stop` not yet): only then are its input devices registered with the
input layer. -/
structure hid_device where
  report_list : List hid_report
  inputs : List hid_input
  driver_data : Option Nat
  connected : Bool
  deriving DecidableEq, Repr

/-- A heap cell: a live object or a released one. -/
inductive Cell where
  | live (x : xiaomiff_device)
  | freed
  deriving DecidableEq, Repr

/-- The observable steps of the driver, in program order. -/
inductive Event where
  | hid_err (msg : String)
  | hid_parse
  | hid_hw_start
  | kzalloc (p : Option Nat)
  | kfree (p : Nat)
  | hid_set_drvdata (p : Option Nat)
  | set_bit_FF_RUMBLE
  | input_ff_create_memless (data : Nat)
  | store (ref : FieldRef) (i : Nat) (v : Int)
  | hid_hw_request (payload : List (List Int))
  | hid_hw_wait
  | INIT_WORK (p : Nat)
  | schedule_work (p : Nat)
  | cancel_work_sync (p : Nat)
  | hid_hw_close
  | hid_hw_stop
  deriving DecidableEq, Repr

/-- The ways a C execution of the driver leaves defined behaviour. -/
inductive Fault where
  | null_deref
  | use_after_free
  | bad_pointer
  | out_of_bounds
  deriving DecidableEq, Repr

/-- The state the driver runs on. -/
structure Kernel where
  hdev : hid_device
  heap : List Cell
  trace : List Event
  deriving DecidableEq, Repr

/-- Outcomes of the calls the driver does not control. -/
structure Env where
  hid_parse : Int
  hid_hw_start : Int
  kzalloc : Bool
  input_ff_create_memless : Int
  deriving DecidableEq, Repr

/-! ## Kernel primitives -/

/-- Append an event to the trace. -/
def Kernel.emit (k : Kernel) (e : Event) : Kernel :=
  { k with trace := k.trace ++ [e] }

/-- Dereference a `struct xiaomiff_device *`. -/
def Kernel.deref (k : Kernel) (p : Option Nat) : Except Fault xiaomiff_device :=
  match p with
  | none => .error .null_deref
  | some a =>
    match k.heap[a]? with
    | none => .error .bad_pointer
    | some .freed => .error .use_after_free
    | some (.live x) => .ok x

/-- Overwrite the live object at address `a`. -/
def Kernel.put (k : Kernel) (a : Nat) (x : xiaomiff_device) : Kernel :=
  { k with heap := k.heap.set a (.live x) }

/-- The field a `FieldRef` points to. -/
def Kernel.read_field (k : Kernel) (ref : FieldRef) : Option hid_field :=
  match k.hdev.report_list[ref.report]? with
  | none => none
  | some r => r.field[ref.index]?

/-- The store `ref->value[i] = v`. -/
def Kernel.store_value (k : Kernel) (ref : FieldRef) (i : Nat) (v : Int) :
    Except Fault Kernel :=
  match k.hdev.report_list[ref.report]? with
  | none => .error .bad_pointer
  | some r =>
    match r.field[ref.index]? with
    | none => .error .bad_pointer
    | some f =>
      if i < f.value.length then
        .ok { k with
              hdev := { k.hdev with
                report_list := k.hdev.report_list.set ref.report
                  { r with field := r.field.set ref.index { value := f.value.set i v } } }
              trace := k.trace ++ [.store ref i v] }
      else .error .out_of_bounds

/-- The call `hid_hw_request(hdev, ref->report, HID_REQ_SET_REPORT)`: the
report that owns the field is transmitted with its current contents. -/
def Kernel.hid_hw_request (k : Kernel) (ref : FieldRef) : Except Fault Kernel :=
  match k.hdev.report_list[ref.report]? with
  | none => .error .bad_pointer
  | some r => .ok (k.emit (.hid_hw_request r.payload))

/-- The call `hid_set_drvdata(hdev, p)`. -/
def Kernel.hid_set_drvdata (k : Kernel) (p : Option Nat) : Kernel :=
  { k with hdev := { k.hdev with driver_data := p }
           trace := k.trace ++ [.hid_set_drvdata p] }

/-- An update of `*dev`, where `dev` is `hidinput->input` of
`list_first_entry(&hdev->inputs, struct hid_input, list)`. On an empty list
`list_first_entry` yields no valid entry: the pointer read from it is invalid,
and the execution faults when it is first written through. -/
def Kernel.update_dev (k : Kernel) (f : input_dev → input_dev) : Except Fault Kernel :=
  match k.hdev.inputs with
  | [] => .error .bad_pointer
  | hidinput :: rest =>
    .ok { k with hdev := { k.hdev with inputs := { input := f hidinput.input } :: rest } }

/-- The call `kfree(p)`. -/
def Kernel.kfree (k : Kernel) (a : Nat) : Kernel :=
  { k with heap := k.heap.set a .freed, trace := k.trace ++ [.kfree a] }

/-- Modelled from the spec: `schedule_work` of the kernel's work queue, which
is not part of this repository, as the single-slot `schedule()` of the spec's
DispatchQueue: if a run is already pending, the call is a no-op, otherwise the
work becomes pending. -/
def schedule_work (work : work_struct) : work_struct :=
  if work.pending then work else { work with pending := true }

/-- The kernel's `cancel_work_sync(&p->work)`, which is not part of this
repository, with the contract the kernel documents for it: a pending run is
taken off the queue and the call returns when no run is executing; the work
stays usable, so a `schedule_work` made after the call queues it again. This
is weaker than the `cancel_and_join()` of the spec (sections 4.3 and 5), which
is final and prevents any future run from starting. Work-queue runs are atomic
steps of this model (`run_work`), so none is executing when the call is made. -/
def Kernel.cancel_work_sync (k : Kernel) (p : Option Nat) : Except Fault Kernel :=
  match p, k.deref p with
  | some a, .ok xiaomiff =>
    .ok ((k.put a { xiaomiff with work := { xiaomiff.work with pending := false } }).emit
      (.cancel_work_sync a))
  | none, _ => .error .null_deref
  | _, .error e => .error e

/-- The call `hid_hw_close(hdev)` of the HID core, which is not part of this
repository: it closes the transport and touches nothing of the state modelled
here, so only the call is recorded. -/
def Kernel.hid_hw_close (k : Kernel) : Kernel :=
  k.emit .hid_hw_close

/-- Modelled from the spec: `hid_hw_stop(hdev)` of the HID core, which is not
part of this repository, as the step from Closing to Closed of spec section
4.4: the generic input layer is detached first (the input devices are
unregistered, so no play call is possible afterwards), then the session is
released (the destructor of each memless force-feedback device frees its
private data, the pointer given to `input_ff_create_memless`). -/
def Kernel.hid_hw_stop (k : Kernel) : Kernel :=
  { hdev := { k.hdev with inputs := [], connected := false }
    heap := (k.hdev.inputs.filterMap (fun h => h.input.ff)).foldl
      (fun heap a => heap.set a .freed) k.heap
    trace := k.trace ++ [.hid_hw_stop] }

/-- The private data pointers with which the input layer can call the play
callback in state `k`: those of the force-feedback devices of the registered
input devices. -/
def Kernel.play_targets (k : Kernel) : List Nat :=
  if k.hdev.connected then k.hdev.inputs.filterMap (fun h => h.input.ff) else []

/-! ## The driver -/

/-- The value scaling of `xiaomiff_play`, the same two statements for each
motor: `x = magnitude; x = x * 0xff / 0xffff;` with `int x` and a `__u16`
magnitude. C division truncates towards zero. -/
def xiaomiff_play_scale (magnitude : Nat) : Int :=
  let x : Int := wrap_int (magnitude : Int)
  wrap_int (Int.tdiv (wrap_int (x * 0xff)) 0xffff)

/-- The function `xiaomiff_play(dev, data, effect)`; `dev` is not used. -/
def xiaomiff_play (data : Nat) (effect : ff_rumble_effect) (k : Kernel) :
    Except Fault (Int × Kernel) :=
  match k.deref (some data) with
  | .error e => .error e
  | .ok xiaomiff =>
    let strong := xiaomiff_play_scale effect.strong_magnitude
    let weak := xiaomiff_play_scale effect.weak_magnitude
    match xiaomiff.field with
    | none => .error .null_deref
    | some ref =>
      match k.store_value ref 0 weak with
      | .error e => .error e
      | .ok k1 =>
        match k1.store_value ref 1 strong with
        | .error e => .error e
        | .ok k2 =>
          let k3 := (k2.put data { xiaomiff with work := schedule_work xiaomiff.work }).emit
            (.schedule_work data)
          .ok (0, k3)

/-- The function `xiaomiff_worker(work)`, for the work embedded in the session
at address `a` (`container_of`). -/
def xiaomiff_worker (a : Nat) (k : Kernel) : Except Fault Kernel :=
  match k.deref (some a) with
  | .error e => .error e
  | .ok xiaomiff =>
    if xiaomiff.hdev then
      match xiaomiff.field with
      | none => .error .null_deref
      | some ref => k.hid_hw_request ref
    else .error .null_deref

/-- Modelled from the spec: one turn of the dispatch context (the kernel's
work queue, not part of this repository) for the work of the session at
address `a`: a pending work is taken off the queue and its handler runs once;
the result says whether a run executed. -/
def run_work (a : Nat) (k : Kernel) : Except Fault (Bool × Kernel) :=
  match k.deref (some a) with
  | .error e => .error e
  | .ok xiaomiff =>
    if xiaomiff.work.pending then
      if xiaomiff.work.func then
        match xiaomiff_worker a
            (k.put a { xiaomiff with work := { xiaomiff.work with pending := false } }) with
        | .error e => .error e
        | .ok k1 => .ok (true, k1)
      else .error .null_deref
    else .ok (false, k)

/-- The loop `for (i = 0; i < XIOAMIFF_MSG_LENGTH; i++) ref->value[i] = 0;`
from index `i`, with `n` iterations left. -/
def reset_rumble (ref : FieldRef) (i : Nat) : Nat → Kernel → Except Fault Kernel
  | 0, k => .ok k
  | n + 1, k =>
    match k.store_value ref i 0 with
    | .error e => .error e
    | .ok k1 => reset_rumble ref (i + 1) n k1

/-- The function `xiaomiff_init(hdev)`. -/
def xiaomiff_init (env : Env) (k : Kernel) : Except Fault (Int × Kernel) :=
  match k.hdev.report_list with
  | [] => .ok (-ENODEV, k.emit (.hid_err "no feature reports found\n"))
  | report :: _ =>
    if report.maxfield < 1 ∨
        report.field.head?.map hid_field.report_count ≠ some XIOAMIFF_MSG_LENGTH then
      .ok (-ENODEV, k.emit (.hid_err "unexpected output report layout\n"))
    else if env.kzalloc = false then
      .ok (-ENOMEM, k.emit (.kzalloc none))
    else
      let p := k.heap.length
      let k1 : Kernel :=
        { k with heap := k.heap ++ [.live .zeroed], trace := k.trace ++ [.kzalloc (some p)] }
      let k2 := k1.hid_set_drvdata (some p)
      let xiaomiff : xiaomiff_device :=
        { xiaomiff_device.zeroed with field := some ⟨0, 0⟩, hdev := true }
      let k3 := k2.put p xiaomiff
      match k3.update_dev (fun dev => { dev with ffbit_rumble := true }) with
      | .error e => .error e
      | .ok k4 =>
        let k5 := k4.emit .set_bit_FF_RUMBLE
        if env.input_ff_create_memless ≠ 0 then
          .ok (env.input_ff_create_memless, k5.kfree p)
        else
          match k5.update_dev (fun dev => { dev with ff := some p }) with
          | .error e => .error e
          | .ok k6 =>
            let k7 := k6.emit (.input_ff_create_memless p)
            match reset_rumble ⟨0, 0⟩ 0 XIOAMIFF_MSG_LENGTH k7 with
            | .error e => .error e
            | .ok k8 =>
              match k8.hid_hw_request ⟨0, 0⟩ with
              | .error e => .error e
              | .ok k9 =>
                let k10 := k9.emit .hid_hw_wait
                let k11 := (k10.put p
                  { xiaomiff with work := { func := true, pending := false } }).emit
                  (.INIT_WORK p)
                .ok (0, k11)

/-- The function `xiaomi_probe(hdev, id)`. -/
def xiaomi_probe (env : Env) (k : Kernel) : Except Fault (Int × Kernel) :=
  let k1 := k.emit .hid_parse
  if env.hid_parse ≠ 0 then
    .ok (env.hid_parse, k1.emit (.hid_err "parse failed\n"))
  else
    let k2 := k1.emit .hid_hw_start
    if env.hid_hw_start ≠ 0 then
      .ok (env.hid_hw_start, k2.emit (.hid_err "hw start failed\n"))
    else
      let k3 : Kernel := { k2 with hdev := { k2.hdev with connected := true } }
      match xiaomiff_init env k3 with
      | .error e => .error e
      | .ok (_, k4) => .ok (0, k4)

/-- The function `xiaomi_remove(hdev)`. -/
def xiaomi_remove (k : Kernel) : Except Fault Kernel :=
  let xiaomiff := k.hdev.driver_data
  match k.cancel_work_sync xiaomiff with
  | .error e => .error e
  | .ok k1 => .ok ((k1.hid_set_drvdata none).hid_hw_close).hid_hw_stop

/-! ## Observations -/

/-- The report buffer of the session at address `data`: the `value` array that
`xiaomiff->field` points to. -/
def Kernel.session_buffer (k : Kernel) (data : Nat) : Option (List Int) :=
  match k.deref (some data) with
  | .error _ => none
  | .ok xiaomiff =>
    match xiaomiff.field with
    | none => none
    | some ref => (k.read_field ref).map hid_field.value

/-- Whether an event is a set-report request to the hardware. -/
def is_hw_request : Event → Bool
  | .hid_hw_request _ => true
  | _ => false

/-- An active session at address `data`: the object is live, its work is armed
(`INIT_WORK` done), it points to the device and to the field `ref`, which holds
the values `buf`; `pending` says whether a dispatch run is queued. -/
def active_session (k : Kernel) (data : Nat) (ref : FieldRef) (pending : Bool)
    (buf : List Int) : Prop :=
  k.heap[data]? = some (.live { field := some ref, hdev := true,
                                work := { func := true, pending := pending } }) ∧
  ∃ r f, k.hdev.report_list[ref.report]? = some r ∧ r.field[ref.index]? = some f ∧
    f.value = buf

/-- The second rejection condition of attach-time validation: the device
advertises a feature report, and the first one has no field or a first field
whose value count is not 6. -/
def layout_unexpected (k : Kernel) : Bool :=
  match k.hdev.report_list with
  | [] => false
  | report :: _ =>
    match report.field with
    | [] => true
    | f :: _ => f.report_count != 6

/-- The play calls `es`, one after the other, with no dispatch run in between. -/
def play_all (data : Nat) : List ff_rumble_effect → Kernel → Except Fault Kernel
  | [], k => .ok k
  | e :: es, k =>
    match xiaomiff_play data e k with
    | .error err => .error err
    | .ok (_, k1) => play_all data es k1

/-- The life of a device under the HID core: `xiaomi_probe`, and, when it
returned 0, `xiaomi_remove` later on. When probe fails the driver is not bound
and remove is never called. -/
def probe_then_remove (env : Env) (k : Kernel) : Except Fault Kernel :=
  match xiaomi_probe env k with
  | .error e => .error e
  | .ok (ret, k1) => if ret = 0 then xiaomi_remove k1 else .ok k1

/-- The function `xiaomi_remove(hdev)` with the input layer calling the play
callback once, right after the first step `cancel_work_sync` has returned:
the call is made on the first target the input layer has at that point, if
any, and the remaining steps of `xiaomi_remove` follow. -/
def xiaomi_remove_with_play (effect : ff_rumble_effect) (k : Kernel) : Except Fault Kernel :=
  let xiaomiff := k.hdev.driver_data
  match k.cancel_work_sync xiaomiff with
  | .error e => .error e
  | .ok k1 =>
    match k1.play_targets with
    | [] => .ok ((k1.hid_set_drvdata none).hid_hw_close).hid_hw_stop
    | data :: _ =>
      match xiaomiff_play data effect k1 with
      | .error e => .error e
      | .ok (_, k2) => .ok ((k2.hid_set_drvdata none).hid_hw_close).hid_hw_stop

/-! ## Closed forms of the states the driver leaves -/

/-- The state `xiaomiff_play` leaves when the session `xiaomiff` at `data` is
live and its field pointer `ref` designates field `f` of report `r`. -/
def after_play (k : Kernel) (data : Nat) (xiaomiff : xiaomiff_device) (ref : FieldRef)
    (r : hid_report) (f : hid_field) (weak strong : Int) : Kernel :=
  { hdev := { k.hdev with
      report_list := k.hdev.report_list.set ref.report
        { field := r.field.set ref.index { value := (f.value.set 0 weak).set 1 strong } } }
    heap := k.heap.set data (.live { xiaomiff with work := schedule_work xiaomiff.work })
    trace := k.trace ++ [.store ref 0 weak, .store ref 1 strong, .schedule_work data] }

/-- The state a successful `xiaomiff_init` leaves, for a device whose first
feature report is `f :: fs` and whose first input device is followed by `his`. -/
def after_init (k : Kernel) (fs : List hid_field) (rest : List hid_report)
    (his : List hid_input) : Kernel :=
  { hdev := { report_list := { field := { value := [0, 0, 0, 0, 0, 0] } :: fs } :: rest
              inputs := { input := { ffbit_rumble := true, ff := some k.heap.length } } :: his
              driver_data := some k.heap.length
              connected := k.hdev.connected }
    heap := k.heap ++ [.live { field := some ⟨0, 0⟩, hdev := true,
                               work := { func := true, pending := false } }]
    trace := k.trace ++
      [.kzalloc (some k.heap.length), .hid_set_drvdata (some k.heap.length),
       .set_bit_FF_RUMBLE, .input_ff_create_memless k.heap.length,
       .store ⟨0, 0⟩ 0 0, .store ⟨0, 0⟩ 1 0, .store ⟨0, 0⟩ 2 0,
       .store ⟨0, 0⟩ 3 0, .store ⟨0, 0⟩ 4 0, .store ⟨0, 0⟩ 5 0,
       .hid_hw_request ([0, 0, 0, 0, 0, 0] :: fs.map hid_field.value),
       .hid_hw_wait, .INIT_WORK k.heap.length] }

/-! ## Concrete devices used for evaluation -/

/-- A device before attach: given feature reports, one input device, no driver
data, an empty heap and an empty trace. -/
def fresh (reports : List hid_report) : Kernel :=
  { hdev := { report_list := reports
              inputs := [{ input := { ffbit_rumble := false, ff := none } }]
              driver_data := none
              connected := false }
    heap := []
    trace := [] }

/-- An environment in which every external call succeeds. -/
def env_ok : Env :=
  { hid_parse := 0, hid_hw_start := 0, kzalloc := true, input_ff_create_memless := 0 }

/-- The controller's layout: one feature report with one six-value field. -/
def six_value_device : Kernel :=
  fresh [{ field := [{ value := [7, 7, 7, 7, 7, 7] }] }]

/-- A device that advertises no feature report. -/
def no_report_device : Kernel := fresh []

/-- A device whose first feature report has a five-value first field. -/
def five_value_device : Kernel :=
  fresh [{ field := [{ value := [0, 0, 0, 0, 0] }] }]

/-- The state of the six-value device after a successful attach. -/
def attached_device : Kernel :=
  { hdev := { report_list := [{ field := [{ value := [0, 0, 0, 0, 0, 0] }] }]
              inputs := [{ input := { ffbit_rumble := true, ff := some 0 } }]
              driver_data := some 0
              connected := true }
    heap := [.live { field := some ⟨0, 0⟩, hdev := true,
                     work := { func := true, pending := false } }]
    trace := [.hid_parse, .hid_hw_start, .kzalloc (some 0), .hid_set_drvdata (some 0),
              .set_bit_FF_RUMBLE, .input_ff_create_memless 0,
              .store ⟨0, 0⟩ 0 0, .store ⟨0, 0⟩ 1 0, .store ⟨0, 0⟩ 2 0,
              .store ⟨0, 0⟩ 3 0, .store ⟨0, 0⟩ 4 0, .store ⟨0, 0⟩ 5 0,
              .hid_hw_request [[0, 0, 0, 0, 0, 0]], .hid_hw_wait, .INIT_WORK 0] }

/-- An environment in which only `input_ff_create_memless` fails, with `-ENOMEM`. -/
def env_no_ff : Env :=
  { hid_parse := 0, hid_hw_start := 0, kzalloc := true, input_ff_create_memless := -12 }

/-- An environment in which only `kzalloc` fails. -/
def env_no_memory : Env :=
  { hid_parse := 0, hid_hw_start := 0, kzalloc := false, input_ff_create_memless := 0 }

/-! ## Theorems -/

/-! ### Scaling -/

theorem wrap_int_of_small (x : Int) (h0 : 0 ≤ x) (h1 : x < 2147483648) : wrap_int x = x := by
  unfold wrap_int
  have h : (x + 2147483648) % 4294967296 = x + 2147483648 := by
    apply Int.emod_eq_of_lt <;> omega
  omega

theorem xiaomiff_play_scale_eq (m : Nat) (h : m ≤ 65535) :
    xiaomiff_play_scale m = ((m * 255 / 65535 : Nat) : Int) := by
  have hq : m * 255 / 65535 ≤ 255 := by omega
  have e1 : wrap_int (m : Int) = (m : Int) := wrap_int_of_small _ (by omega) (by omega)
  have e2 : wrap_int ((m : Int) * 0xff) = ((m * 255 : Nat) : Int) := by
    rw [wrap_int_of_small _ (by omega) (by omega)]
    push_cast
    rfl
  have e3 : Int.tdiv ((m * 255 : Nat) : Int) 0xffff = ((m * 255 / 65535 : Nat) : Int) :=
    (Int.ofNat_tdiv (m * 255) 65535).symm
  simp only [xiaomiff_play_scale, e1, e2, e3]
  exact wrap_int_of_small _ (by omega) (by omega)

/-- C1: for a 16-bit magnitude `m`, the product `m * 0xff` does not wrap in a
C `int`, the byte `xiaomiff_play` computes is the exact quotient
`m * 255 / 65535`, it lies in `[0, 255]`, and the magnitudes 0, 65535 and
32768 give the bytes 0, 255 and 127. -/
theorem scale_is_exact_quotient (m : Nat) (h : m ≤ 65535) :
    wrap_int ((m : Int) * 0xff) = (m : Int) * 255 ∧
    xiaomiff_play_scale m = ((m * 255 / 65535 : Nat) : Int) ∧
    0 ≤ xiaomiff_play_scale m ∧ xiaomiff_play_scale m ≤ 255 ∧
    xiaomiff_play_scale 0 = 0 ∧ xiaomiff_play_scale 65535 = 255 ∧
    xiaomiff_play_scale 32768 = 127 := by
  have hq : m * 255 / 65535 ≤ 255 := by omega
  refine ⟨wrap_int_of_small _ (by omega) (by omega), xiaomiff_play_scale_eq m h, ?_, ?_,
    by decide, by decide, by decide⟩
  · rw [xiaomiff_play_scale_eq m h]; omega
  · rw [xiaomiff_play_scale_eq m h]; omega

/-- C1 at the magnitude 40000. -/
theorem scale_is_exact_quotient_witness :
    (40000 : Nat) ≤ 65535 ∧
    (wrap_int (((40000 : Nat) : Int) * 0xff) = ((40000 : Nat) : Int) * 255 ∧
    xiaomiff_play_scale 40000 = ((40000 * 255 / 65535 : Nat) : Int) ∧
    0 ≤ xiaomiff_play_scale 40000 ∧ xiaomiff_play_scale 40000 ≤ 255 ∧
    xiaomiff_play_scale 0 = 0 ∧ xiaomiff_play_scale 65535 = 255 ∧
    xiaomiff_play_scale 32768 = 127) :=
  ⟨by decide, scale_is_exact_quotient 40000 (by decide)⟩

/-! ### The play callback -/

theorem getElem?_lt_of_eq_some {α : Type} {l : List α} {i : Nat} {a : α}
    (h : l[i]? = some a) : i < l.length := by
  rcases List.getElem?_eq_some.mp h with ⟨hi, _⟩
  exact hi

theorem xiaomiff_play_eq (k : Kernel) (data : Nat) (effect : ff_rumble_effect)
    (xiaomiff : xiaomiff_device) (ref : FieldRef) (r : hid_report) (f : hid_field)
    (hx : k.heap[data]? = some (.live xiaomiff)) (href : xiaomiff.field = some ref)
    (hr : k.hdev.report_list[ref.report]? = some r) (hf : r.field[ref.index]? = some f)
    (hlen : 2 ≤ f.value.length) :
    xiaomiff_play data effect k = .ok (0, after_play k data xiaomiff ref r f
      (xiaomiff_play_scale effect.weak_magnitude)
      (xiaomiff_play_scale effect.strong_magnitude)) := by
  have h0 : 0 < f.value.length := by omega
  have h1 : 1 < f.value.length := by omega
  have hrl := getElem?_lt_of_eq_some hr
  have hfl := getElem?_lt_of_eq_some hf
  simp [xiaomiff_play, Kernel.deref, hx, href, Kernel.store_value, hr, hf, h0, h1, hrl, hfl,
    Kernel.put, Kernel.emit, after_play, List.set_set]

theorem session_buffer_after_play (k : Kernel) (data : Nat)
    (xiaomiff : xiaomiff_device) (ref : FieldRef) (r : hid_report) (f : hid_field)
    (weak strong : Int)
    (hx : k.heap[data]? = some (.live xiaomiff)) (href : xiaomiff.field = some ref)
    (hr : k.hdev.report_list[ref.report]? = some r) (hf : r.field[ref.index]? = some f) :
    (after_play k data xiaomiff ref r f weak strong).session_buffer data =
      some ((f.value.set 0 weak).set 1 strong) := by
  have hxl := getElem?_lt_of_eq_some hx
  have hrl := getElem?_lt_of_eq_some hr
  have hfl := getElem?_lt_of_eq_some hf
  simp [after_play, Kernel.session_buffer, Kernel.deref, Kernel.read_field, hxl, hrl, hfl, href]

theorem session_buffer_eq_some {k : Kernel} {data : Nat} {buf : List Int}
    (h : k.session_buffer data = some buf) :
    ∃ xiaomiff ref r f, k.heap[data]? = some (.live xiaomiff) ∧ xiaomiff.field = some ref ∧
      k.hdev.report_list[ref.report]? = some r ∧ r.field[ref.index]? = some f ∧
      f.value = buf := by
  unfold Kernel.session_buffer Kernel.deref at h
  simp only at h
  cases hx : k.heap[data]? with
  | none => simp [hx] at h
  | some c =>
    cases c with
    | freed => simp [hx] at h
    | live x =>
      simp only [hx] at h
      cases href : x.field with
      | none => simp [href] at h
      | some ref =>
        simp only [href, Kernel.read_field] at h
        cases hr : k.hdev.report_list[ref.report]? with
        | none => simp [hr] at h
        | some r =>
          simp only [hr] at h
          cases hf : r.field[ref.index]? with
          | none => simp [hf] at h
          | some f =>
            simp only [hf, Option.map_some', Option.some.injEq] at h
            exact ⟨x, ref, r, f, rfl, href, hr, hf, h⟩

/-- C2: on a session whose buffer holds six values, `xiaomiff_play` returns 0
and leaves the scaled weak magnitude at index 0, the scaled strong magnitude
at index 1, and the values at indices 2 to 5 as they were. -/
theorem play_stores_two_bytes (k : Kernel) (data : Nat) (effect : ff_rumble_effect)
    (b0 b1 b2 b3 b4 b5 : Int)
    (hbuf : k.session_buffer data = some [b0, b1, b2, b3, b4, b5])
    (hweak : effect.weak_magnitude ≤ 65535) (hstrong : effect.strong_magnitude ≤ 65535) :
    ∃ k1, xiaomiff_play data effect k = .ok (0, k1) ∧
      k1.session_buffer data =
        some [((effect.weak_magnitude * 255 / 65535 : Nat) : Int),
              ((effect.strong_magnitude * 255 / 65535 : Nat) : Int), b2, b3, b4, b5] := by
  obtain ⟨x, ref, r, f, hx, href, hr, hf, hv⟩ := session_buffer_eq_some hbuf
  refine ⟨_, xiaomiff_play_eq k data effect x ref r f hx href hr hf (by simp [hv]), ?_⟩
  rw [session_buffer_after_play k data x ref r f _ _ hx href hr hf, hv,
    xiaomiff_play_scale_eq _ hweak, xiaomiff_play_scale_eq _ hstrong]
  rfl

/-! ### Attach: the paths of `xiaomiff_init` -/

theorem length_six {l : List Int} (h : l.length = 6) :
    ∃ v0 v1 v2 v3 v4 v5, l = [v0, v1, v2, v3, v4, v5] := by
  match l, h with
  | [v0, v1, v2, v3, v4, v5], _ => exact ⟨v0, v1, v2, v3, v4, v5, rfl⟩

theorem xiaomiff_init_no_report (env : Env) (k : Kernel) (h : k.hdev.report_list = []) :
    xiaomiff_init env k =
      .ok (-ENODEV, k.emit (.hid_err "no feature reports found\n")) := by
  simp [xiaomiff_init, h]

theorem xiaomiff_init_no_field (env : Env) (k : Kernel) (report : hid_report)
    (rest : List hid_report) (h : k.hdev.report_list = report :: rest)
    (hf : report.field = []) :
    xiaomiff_init env k =
      .ok (-ENODEV, k.emit (.hid_err "unexpected output report layout\n")) := by
  simp [xiaomiff_init, h, hid_report.maxfield, hf]

theorem xiaomiff_init_bad_count (env : Env) (k : Kernel) (report : hid_report)
    (rest : List hid_report) (f : hid_field) (fs : List hid_field)
    (h : k.hdev.report_list = report :: rest) (hf : report.field = f :: fs)
    (hc : f.value.length ≠ 6) :
    xiaomiff_init env k =
      .ok (-ENODEV, k.emit (.hid_err "unexpected output report layout\n")) := by
  simp [xiaomiff_init, h, hid_report.maxfield, hf, hid_field.report_count,
    XIOAMIFF_MSG_LENGTH, hc]

theorem xiaomiff_init_no_memory (env : Env) (k : Kernel) (report : hid_report)
    (rest : List hid_report) (f : hid_field) (fs : List hid_field)
    (h : k.hdev.report_list = report :: rest) (hf : report.field = f :: fs)
    (hc : f.value.length = 6) (ha : env.kzalloc = false) :
    xiaomiff_init env k = .ok (-ENOMEM, k.emit (.kzalloc none)) := by
  simp [xiaomiff_init, h, hid_report.maxfield, hf, hid_field.report_count,
    XIOAMIFF_MSG_LENGTH, hc, ha]

theorem xiaomiff_init_no_input (env : Env) (k : Kernel) (report : hid_report)
    (rest : List hid_report) (f : hid_field) (fs : List hid_field)
    (h : k.hdev.report_list = report :: rest) (hf : report.field = f :: fs)
    (hc : f.value.length = 6) (ha : env.kzalloc = true) (hi : k.hdev.inputs = []) :
    xiaomiff_init env k = .error .bad_pointer := by
  simp [xiaomiff_init, h, hid_report.maxfield, hf, hid_field.report_count,
    XIOAMIFF_MSG_LENGTH, hc, ha, Kernel.update_dev, Kernel.put, Kernel.hid_set_drvdata, hi]

theorem xiaomiff_init_no_ff (env : Env) (k : Kernel) (report : hid_report)
    (rest : List hid_report) (f : hid_field) (fs : List hid_field)
    (hidinput : hid_input) (his : List hid_input)
    (h : k.hdev.report_list = report :: rest) (hf : report.field = f :: fs)
    (hc : f.value.length = 6) (ha : env.kzalloc = true)
    (hi : k.hdev.inputs = hidinput :: his) (he : env.input_ff_create_memless ≠ 0) :
    xiaomiff_init env k = .ok (env.input_ff_create_memless,
      { hdev := { k.hdev with
          inputs := { input := { hidinput.input with ffbit_rumble := true } } :: his
          driver_data := some k.heap.length }
        heap := k.heap ++ [.freed]
        trace := k.trace ++
          [.kzalloc (some k.heap.length), .hid_set_drvdata (some k.heap.length),
           .set_bit_FF_RUMBLE, .kfree k.heap.length] }) := by
  simp [xiaomiff_init, h, hid_report.maxfield, hf, hid_field.report_count,
    XIOAMIFF_MSG_LENGTH, hc, ha, Kernel.update_dev, Kernel.put, Kernel.hid_set_drvdata, hi,
    he, Kernel.kfree, Kernel.emit]

theorem xiaomiff_init_attached (env : Env) (k : Kernel) (report : hid_report)
    (rest : List hid_report) (f : hid_field) (fs : List hid_field)
    (hidinput : hid_input) (his : List hid_input)
    (h : k.hdev.report_list = report :: rest) (hf : report.field = f :: fs)
    (hc : f.value.length = 6) (ha : env.kzalloc = true)
    (hi : k.hdev.inputs = hidinput :: his) (he : env.input_ff_create_memless = 0) :
    xiaomiff_init env k = .ok (0, after_init k fs rest his) := by
  obtain ⟨v0, v1, v2, v3, v4, v5, hv⟩ := length_six hc
  simp [xiaomiff_init, h, hid_report.maxfield, hf, hid_field.report_count,
    XIOAMIFF_MSG_LENGTH, hc, ha, Kernel.update_dev, Kernel.put, Kernel.hid_set_drvdata, hi,
    he, Kernel.emit, reset_rumble, Kernel.store_value, hv, Kernel.hid_hw_request,
    hid_report.payload, after_init, xiaomiff_device.zeroed]

/-! ### Play calls and the dispatch run -/

theorem play_on_active_session (k : Kernel) (data : Nat) (ref : FieldRef) (pending : Bool)
    (c0 c1 b2 b3 b4 b5 : Int) (e : ff_rumble_effect)
    (h : active_session k data ref pending [c0, c1, b2, b3, b4, b5]) :
    ∃ k1, xiaomiff_play data e k = .ok (0, k1) ∧
      active_session k1 data ref true
        [xiaomiff_play_scale e.weak_magnitude, xiaomiff_play_scale e.strong_magnitude,
         b2, b3, b4, b5] ∧
      k1.trace = k.trace ++
        [.store ref 0 (xiaomiff_play_scale e.weak_magnitude),
         .store ref 1 (xiaomiff_play_scale e.strong_magnitude), .schedule_work data] := by
  obtain ⟨hx, r, f, hr, hf, hv⟩ := h
  have hxl := getElem?_lt_of_eq_some hx
  have hrl := getElem?_lt_of_eq_some hr
  have hfl := getElem?_lt_of_eq_some hf
  refine ⟨_, xiaomiff_play_eq k data e _ ref r f hx rfl hr hf (by simp [hv]), ?_, rfl⟩
  refine ⟨?_, hid_report.mk (r.field.set ref.index
      (hid_field.mk ((f.value.set 0 (xiaomiff_play_scale e.weak_magnitude)).set 1
        (xiaomiff_play_scale e.strong_magnitude)))),
    hid_field.mk ((f.value.set 0 (xiaomiff_play_scale e.weak_magnitude)).set 1
        (xiaomiff_play_scale e.strong_magnitude)), ?_, ?_, ?_⟩
  · cases pending <;> simp [after_play, schedule_work, hxl]
  · simp only [after_play]
    exact List.getElem?_set_self hrl
  · exact List.getElem?_set_self hfl
  · simp [hv]

theorem play_all_on_active_session (data : Nat) (ref : FieldRef) (b2 b3 b4 b5 : Int)
    (es : List ff_rumble_effect) (hne : es ≠ []) :
    ∀ (k : Kernel) (pending : Bool) (c0 c1 : Int),
      active_session k data ref pending [c0, c1, b2, b3, b4, b5] →
      ∃ k1 t, play_all data es k = .ok k1 ∧
        active_session k1 data ref true
          [xiaomiff_play_scale (es.getLast hne).weak_magnitude,
           xiaomiff_play_scale (es.getLast hne).strong_magnitude, b2, b3, b4, b5] ∧
        k1.trace = k.trace ++ t ∧ ∀ ev ∈ t, is_hw_request ev = false := by
  induction es with
  | nil => exact absurd rfl hne
  | cons e es ih =>
    intro k pending c0 c1 h
    obtain ⟨k1, hplay, hact, htrace⟩ :=
      play_on_active_session k data ref pending c0 c1 b2 b3 b4 b5 e h
    have hnew : ∀ ev ∈ [Event.store ref 0 (xiaomiff_play_scale e.weak_magnitude),
        Event.store ref 1 (xiaomiff_play_scale e.strong_magnitude),
        Event.schedule_work data], is_hw_request ev = false := by
      intro ev hev
      simp only [List.mem_cons, List.mem_singleton, List.not_mem_nil, or_false] at hev
      rcases hev with rfl | rfl | rfl <;> rfl
    by_cases hes : es = []
    · subst hes
      exact ⟨k1, _, by simp [play_all, hplay], hact, htrace, hnew⟩
    · obtain ⟨k2, t, hall, hact2, htrace2, hno⟩ := ih hes k1 true _ _ hact
      refine ⟨k2, [Event.store ref 0 (xiaomiff_play_scale e.weak_magnitude),
        Event.store ref 1 (xiaomiff_play_scale e.strong_magnitude),
        Event.schedule_work data] ++ t, ?_, ?_, ?_, ?_⟩
      · simp [play_all, hplay, hall]
      · rw [List.getLast_cons hes]
        exact hact2
      · rw [htrace2, htrace, List.append_assoc]
      · intro ev hev
        rcases List.mem_append.mp hev with h1 | h1
        · exact hnew ev h1
        · exact hno ev h1

theorem run_work_on_pending (k : Kernel) (data : Nat) (ref : FieldRef) (buf : List Int)
    (h : active_session k data ref true buf) :
    ∃ k1 payload, run_work data k = .ok (true, k1) ∧
      k1.trace = k.trace ++ [.hid_hw_request payload] ∧ payload[ref.index]? = some buf ∧
      active_session k1 data ref false buf := by
  obtain ⟨hx, r, f, hr, hf, hv⟩ := h
  have hxl := getElem?_lt_of_eq_some hx
  refine ⟨{ k with
      heap := k.heap.set data (.live { field := some ref, hdev := true,
                                       work := { func := true, pending := false } })
      trace := k.trace ++ [.hid_hw_request r.payload] }, r.payload, ?_, rfl, ?_, ?_⟩
  · simp [run_work, Kernel.deref, hx, xiaomiff_worker, Kernel.put, hxl,
      Kernel.hid_hw_request, hr, Kernel.emit]
  · simp [hid_report.payload, hf, hv]
  · exact ⟨List.getElem?_set_self hxl, r, f, hr, hf, hv⟩

theorem run_work_on_idle (k : Kernel) (data : Nat) (ref : FieldRef) (buf : List Int)
    (h : active_session k data ref false buf) :
    run_work data k = .ok (false, k) := by
  obtain ⟨hx, _⟩ := h
  simp [run_work, Kernel.deref, hx]

/-- C5: play calls made on an active session while no dispatch run is pending,
with no dispatch in between, lead to exactly one dispatch run: the calls issue
no hardware request themselves, the next turn of the dispatch context runs the
worker once, the following turn runs nothing, and the one request transmits
the buffer as the last call left it: scaled weak and strong magnitudes of the
last call at indices 0 and 1, the other four values untouched. -/
theorem plays_coalesce_into_one_run (k : Kernel) (data : Nat) (ref : FieldRef)
    (b0 b1 b2 b3 b4 b5 : Int) (es : List ff_rumble_effect)
    (h : active_session k data ref false [b0, b1, b2, b3, b4, b5]) (hne : es ≠ [])
    (hu16 : ∀ e ∈ es, e.weak_magnitude ≤ 65535 ∧ e.strong_magnitude ≤ 65535) :
    ∃ k1 k2 t payload, play_all data es k = .ok k1 ∧
      k1.trace = k.trace ++ t ∧ (∀ ev ∈ t, is_hw_request ev = false) ∧
      run_work data k1 = .ok (true, k2) ∧
      k2.trace = k1.trace ++ [.hid_hw_request payload] ∧
      payload[ref.index]? =
        some [(((es.getLast hne).weak_magnitude * 255 / 65535 : Nat) : Int),
              (((es.getLast hne).strong_magnitude * 255 / 65535 : Nat) : Int),
              b2, b3, b4, b5] ∧
      run_work data k2 = .ok (false, k2) := by
  obtain ⟨k1, t, hall, hact, htrace, hno⟩ :=
    play_all_on_active_session data ref b2 b3 b4 b5 es hne k false b0 b1 h
  obtain ⟨k2, payload, hrun, htrace2, hpay, hact2⟩ := run_work_on_pending k1 data ref _ hact
  have hlast := hu16 _ (List.getLast_mem hne)
  refine ⟨k1, k2, t, payload, hall, htrace, hno, hrun, htrace2, ?_,
    run_work_on_idle k2 data ref _ hact2⟩
  rw [hpay, xiaomiff_play_scale_eq _ hlast.1, xiaomiff_play_scale_eq _ hlast.2]

/-! ### Attach-time validation -/

theorem layout_expected_shape (k : Kernel) (h0 : k.hdev.report_list ≠ [])
    (h1 : layout_unexpected k = false) :
    ∃ report rest f fs, k.hdev.report_list = report :: rest ∧ report.field = f :: fs ∧
      f.value.length = 6 := by
  unfold layout_unexpected at h1
  cases hr : k.hdev.report_list with
  | nil => exact absurd hr h0
  | cons report rest =>
    rw [hr] at h1
    cases hf : report.field with
    | nil => simp [hf] at h1
    | cons f fs =>
      simp only [hf, hid_field.report_count, bne_eq_false_iff_eq] at h1
      exact ⟨report, rest, f, fs, rfl, hf, h1⟩

theorem xiaomiff_init_unexpected (env : Env) (k : Kernel) (h : layout_unexpected k = true) :
    xiaomiff_init env k =
      .ok (-ENODEV, k.emit (.hid_err "unexpected output report layout\n")) := by
  unfold layout_unexpected at h
  cases hr : k.hdev.report_list with
  | nil => simp [hr] at h
  | cons report rest =>
    rw [hr] at h
    cases hf : report.field with
    | nil => exact xiaomiff_init_no_field env k report rest hr hf
    | cons f fs =>
      simp only [hf, hid_field.report_count, bne_iff_ne, ne_eq] at h
      exact xiaomiff_init_bad_count env k report rest f fs hr hf h

/-- Every path through `xiaomiff_init`. -/
theorem xiaomiff_init_cases (env : Env) (k : Kernel) :
    (k.hdev.report_list = [] ∧ xiaomiff_init env k =
        .ok (-ENODEV, k.emit (.hid_err "no feature reports found\n"))) ∨
    (layout_unexpected k = true ∧ xiaomiff_init env k =
        .ok (-ENODEV, k.emit (.hid_err "unexpected output report layout\n"))) ∨
    (k.hdev.report_list ≠ [] ∧ layout_unexpected k = false ∧
      ((env.kzalloc = false ∧ xiaomiff_init env k = .ok (-ENOMEM, k.emit (.kzalloc none))) ∨
       (env.kzalloc = true ∧ k.hdev.inputs = [] ∧
          xiaomiff_init env k = .error .bad_pointer) ∨
       (env.kzalloc = true ∧ env.input_ff_create_memless ≠ 0 ∧
          ∃ k1, xiaomiff_init env k = .ok (env.input_ff_create_memless, k1) ∧
            k1.trace = k.trace ++
              [.kzalloc (some k.heap.length), .hid_set_drvdata (some k.heap.length),
               .set_bit_FF_RUMBLE, .kfree k.heap.length]) ∨
       (env.kzalloc = true ∧ env.input_ff_create_memless = 0 ∧
          ∃ f fs rest hidinput his, k.hdev.report_list = { field := f :: fs } :: rest ∧
            k.hdev.inputs = hidinput :: his ∧
            xiaomiff_init env k = .ok (0, after_init k fs rest his)))) := by
  by_cases h0 : k.hdev.report_list = []
  · exact Or.inl ⟨h0, xiaomiff_init_no_report env k h0⟩
  · cases h1 : layout_unexpected k with
    | true => exact Or.inr (Or.inl ⟨rfl, xiaomiff_init_unexpected env k h1⟩)
    | false =>
      obtain ⟨report, rest, f, fs, hr, hf, hc⟩ := layout_expected_shape k h0 h1
      refine Or.inr (Or.inr ⟨h0, rfl, ?_⟩)
      cases ha : env.kzalloc with
      | false => exact Or.inl ⟨rfl, xiaomiff_init_no_memory env k report rest f fs hr hf hc ha⟩
      | true =>
        cases hi : k.hdev.inputs with
        | nil =>
          exact Or.inr (Or.inl ⟨rfl, rfl,
            xiaomiff_init_no_input env k report rest f fs hr hf hc ha hi⟩)
        | cons hidinput his =>
          by_cases he : env.input_ff_create_memless = 0
          · refine Or.inr (Or.inr (Or.inr ⟨rfl, he, f, fs, rest, hidinput, his, ?_, rfl,
              xiaomiff_init_attached env k report rest f fs hidinput his hr hf hc ha hi he⟩))
            rw [hr, ← hf]
          · exact Or.inr (Or.inr (Or.inl ⟨rfl, he, _,
              xiaomiff_init_no_ff env k report rest f fs hidinput his hr hf hc ha hi he, rfl⟩))

theorem emit_injective (k : Kernel) (e1 e2 : Event) (h : k.emit e1 = k.emit e2) : e1 = e2 := by
  have ht : (k.emit e1).trace = (k.emit e2).trace := by rw [h]
  simpa [Kernel.emit] using ht

/-- C3, as amended: `xiaomiff_init` rejects with `-ENODEV` and the message "no
feature reports found" exactly when the device advertises no feature report,
and with `-ENODEV` and the message "unexpected output report layout" exactly
when it advertises one whose first report has no field or a first field whose
value count is not 6; in both cases nothing changes but the log. Otherwise,
when allocation and capability registration succeed, it returns 0 and the
session in the driver data points to field 0 of report 0. -/
theorem init_validation_outcomes (env : Env) (k : Kernel) :
    (xiaomiff_init env k = .ok (-ENODEV, k.emit (.hid_err "no feature reports found\n")) ↔
      k.hdev.report_list = []) ∧
    (xiaomiff_init env k =
        .ok (-ENODEV, k.emit (.hid_err "unexpected output report layout\n")) ↔
      layout_unexpected k = true) ∧
    (k.hdev.report_list ≠ [] → layout_unexpected k = false → env.kzalloc = true →
      k.hdev.inputs ≠ [] → env.input_ff_create_memless = 0 →
      ∃ k1 p xiaomiff, xiaomiff_init env k = .ok (0, k1) ∧ k1.hdev.driver_data = some p ∧
        k1.deref (some p) = .ok xiaomiff ∧ xiaomiff.field = some ⟨0, 0⟩) := by
  refine ⟨⟨?_, xiaomiff_init_no_report env k⟩, ⟨?_, xiaomiff_init_unexpected env k⟩, ?_⟩
  · intro h
    rcases xiaomiff_init_cases env k with ⟨h0, _⟩ | ⟨_, h2⟩ | ⟨_, _, h3⟩
    · exact h0
    · rw [h2] at h
      simp only [Except.ok.injEq, Prod.mk.injEq, true_and] at h
      exact absurd (emit_injective k _ _ h) (by decide)
    · rcases h3 with ⟨_, h4⟩ | ⟨_, _, h4⟩ | ⟨_, _, k1, h4, ht⟩ | ⟨_, _, f, fs, rest, hi, his, _, _, h4⟩
      · rw [h4] at h
        simp [ENODEV, ENOMEM] at h
      · rw [h4] at h
        simp at h
      · rw [h4] at h
        simp only [Except.ok.injEq, Prod.mk.injEq] at h
        rw [h.2] at ht
        simp [Kernel.emit] at ht
      · rw [h4] at h
        simp [ENODEV] at h
  · intro h
    rcases xiaomiff_init_cases env k with ⟨_, h1⟩ | ⟨h2, _⟩ | ⟨_, _, h3⟩
    · rw [h1] at h
      simp only [Except.ok.injEq, Prod.mk.injEq, true_and] at h
      exact absurd (emit_injective k _ _ h) (by decide)
    · exact h2
    · rcases h3 with ⟨_, h4⟩ | ⟨_, _, h4⟩ | ⟨_, _, k1, h4, ht⟩ | ⟨_, _, f, fs, rest, hi, his, _, _, h4⟩
      · rw [h4] at h
        simp [ENODEV, ENOMEM] at h
      · rw [h4] at h
        simp at h
      · rw [h4] at h
        simp only [Except.ok.injEq, Prod.mk.injEq] at h
        rw [h.2] at ht
        simp [Kernel.emit] at ht
      · rw [h4] at h
        simp [ENODEV] at h
  · intro h0 h1 ha hi he
    obtain ⟨report, rest, f, fs, hr, hf, hc⟩ := layout_expected_shape k h0 h1
    obtain ⟨hidinput, his, hi1⟩ := List.exists_cons_of_ne_nil hi
    refine ⟨_, k.heap.length,
      { field := some ⟨0, 0⟩, hdev := true, work := { func := true, pending := false } },
      xiaomiff_init_attached env k report rest f fs hidinput his hr hf hc ha hi1 he, rfl, ?_, rfl⟩
    simp [after_init, Kernel.deref]

/-- C3, as amended, on the six-value device: validation passes and the session
points to field 0 of report 0. -/
theorem init_validation_outcomes_witness :
    ∃ k1 p xiaomiff, xiaomiff_init env_ok six_value_device = .ok (0, k1) ∧
      k1.hdev.driver_data = some p ∧ k1.deref (some p) = .ok xiaomiff ∧
      xiaomiff.field = some ⟨0, 0⟩ :=
  (init_validation_outcomes env_ok six_value_device).2.2 (by decide) rfl rfl (by decide) rfl

/-- C3, the claim as stated fails: the two validation failures are not distinct
error kinds for the caller. On a device with no feature report and on a device
whose first field has five values `xiaomiff_init` returns the same code,
`-ENODEV` (-19). -/
theorem validation_failures_share_code :
    (xiaomiff_init env_ok no_report_device).map Prod.fst = .ok (-19) ∧
    (xiaomiff_init env_ok five_value_device).map Prod.fst = .ok (-19) ∧
    (xiaomiff_init env_ok no_report_device).map Prod.fst =
      (xiaomiff_init env_ok five_value_device).map Prod.fst := by
  refine ⟨rfl, rfl, rfl⟩

/-- C8: when attach-time validation fails, `xiaomiff_init` returns `-ENODEV`
and changes nothing but the log: the device (driver data, input devices and
their capability bits and callbacks, report buffers) and the heap are as
before, and the only new event is the error message; no allocation, no store
and no hardware request happens. -/
theorem failed_validation_has_no_effect (env : Env) (k : Kernel)
    (h : k.hdev.report_list = [] ∨ layout_unexpected k = true) :
    ∃ k1 msg, xiaomiff_init env k = .ok (-ENODEV, k1) ∧ k1.hdev = k.hdev ∧
      k1.heap = k.heap ∧ k1.trace = k.trace ++ [.hid_err msg] := by
  rcases h with h | h
  · exact ⟨_, _, xiaomiff_init_no_report env k h, rfl, rfl, rfl⟩
  · exact ⟨_, _, xiaomiff_init_unexpected env k h, rfl, rfl, rfl⟩

/-- C8 on the device whose first field has five values. -/
theorem failed_validation_has_no_effect_witness :
    (five_value_device.hdev.report_list = [] ∨ layout_unexpected five_value_device = true) ∧
    ∃ k1 msg, xiaomiff_init env_ok five_value_device = .ok (-ENODEV, k1) ∧
      k1.hdev = five_value_device.hdev ∧ k1.heap = five_value_device.heap ∧
      k1.trace = five_value_device.trace ++ [.hid_err msg] :=
  ⟨Or.inr rfl, failed_validation_has_no_effect env_ok five_value_device (Or.inr rfl)⟩

/-! ### Attach: reset write and order of the steps -/

theorem probe_six_value_device :
    xiaomi_probe env_ok six_value_device = .ok (0, attached_device) := rfl

/-- C6: on a device whose first feature report has a first field of six
values, when allocation succeeds and capability registration succeeds (there
is an input device to register on and `input_ff_create_memless` returns 0),
`xiaomiff_init` returns 0, the six buffer values of the session are 0, and
among the events of the call there is exactly one hardware request: it carries
the zeroed report and is directly followed by the wait for its completion. -/
theorem init_resets_rumble (env : Env) (k : Kernel) (report : hid_report)
    (rest : List hid_report) (f : hid_field) (fs : List hid_field)
    (hr : k.hdev.report_list = report :: rest) (hf : report.field = f :: fs)
    (hc : f.report_count = 6) (ha : env.kzalloc = true) (hi : k.hdev.inputs ≠ [])
    (he : env.input_ff_create_memless = 0) :
    ∃ k1 p r1 pre post, xiaomiff_init env k = .ok (0, k1) ∧
      k1.hdev.driver_data = some p ∧
      k1.session_buffer p = some [0, 0, 0, 0, 0, 0] ∧
      k1.hdev.report_list = r1 :: rest ∧
      r1.field = { value := [0, 0, 0, 0, 0, 0] } :: fs ∧
      k1.trace = k.trace ++ pre ++ [.hid_hw_request r1.payload, .hid_hw_wait] ++ post ∧
      (∀ ev ∈ pre, is_hw_request ev = false) ∧ (∀ ev ∈ post, is_hw_request ev = false) := by
  obtain ⟨hidinput, his, hi1⟩ := List.exists_cons_of_ne_nil hi
  refine ⟨_, k.heap.length, hid_report.mk (hid_field.mk [0, 0, 0, 0, 0, 0] :: fs),
    [.kzalloc (some k.heap.length), .hid_set_drvdata (some k.heap.length),
     .set_bit_FF_RUMBLE, .input_ff_create_memless k.heap.length,
     .store ⟨0, 0⟩ 0 0, .store ⟨0, 0⟩ 1 0, .store ⟨0, 0⟩ 2 0,
     .store ⟨0, 0⟩ 3 0, .store ⟨0, 0⟩ 4 0, .store ⟨0, 0⟩ 5 0],
    [.INIT_WORK k.heap.length],
    xiaomiff_init_attached env k report rest f fs hidinput his hr hf hc ha hi1 he,
    rfl, ?_, rfl, rfl, ?_, ?_, ?_⟩
  · simp [after_init, Kernel.session_buffer, Kernel.deref, Kernel.read_field]
  · simp [after_init, hid_report.payload]
  · intro ev hev
    simp only [List.mem_cons, List.mem_singleton, List.not_mem_nil, or_false] at hev
    rcases hev with rfl | rfl | rfl | rfl | rfl | rfl | rfl | rfl | rfl | rfl <;> rfl
  · intro ev hev
    simp only [List.mem_singleton] at hev
    subst hev
    rfl

/-- C6 on the six-value device, whose buffer holds sevens before the attach. -/
theorem init_resets_rumble_witness :
    ∃ k1 p r1 pre post, xiaomiff_init env_ok six_value_device = .ok (0, k1) ∧
      k1.hdev.driver_data = some p ∧
      k1.session_buffer p = some [0, 0, 0, 0, 0, 0] ∧
      k1.hdev.report_list = r1 :: [] ∧
      r1.field = { value := [0, 0, 0, 0, 0, 0] } :: [] ∧
      k1.trace = six_value_device.trace ++ pre ++
        [.hid_hw_request r1.payload, .hid_hw_wait] ++ post ∧
      (∀ ev ∈ pre, is_hw_request ev = false) ∧ (∀ ev ∈ post, is_hw_request ev = false) :=
  init_resets_rumble env_ok six_value_device { field := [{ value := [7, 7, 7, 7, 7, 7] }] } []
    { value := [7, 7, 7, 7, 7, 7] } [] rfl rfl rfl rfl (by decide) rfl

/-- C7, as amended: in every successful `xiaomiff_init` the rumble capability
is advertised and the play callback installed first; only then is the buffer
zero-filled, and after that the write of the zeroed report is issued and its
completion awaited. -/
theorem attach_order (env : Env) (k k1 : Kernel) (h : xiaomiff_init env k = .ok (0, k1)) :
    ∃ p pre post payload, k1.trace = k.trace ++ pre ++
        [.set_bit_FF_RUMBLE, .input_ff_create_memless p,
         .store ⟨0, 0⟩ 0 0, .store ⟨0, 0⟩ 1 0, .store ⟨0, 0⟩ 2 0,
         .store ⟨0, 0⟩ 3 0, .store ⟨0, 0⟩ 4 0, .store ⟨0, 0⟩ 5 0,
         .hid_hw_request payload, .hid_hw_wait] ++ post ∧
      payload.head? = some [0, 0, 0, 0, 0, 0] ∧
      k1.hdev.inputs.head?.map hid_input.input = some { ffbit_rumble := true, ff := some p } := by
  rcases xiaomiff_init_cases env k with ⟨_, h1⟩ | ⟨_, h2⟩ | ⟨_, _, h3⟩
  · rw [h1] at h
    simp [ENODEV] at h
  · rw [h2] at h
    simp [ENODEV] at h
  · rcases h3 with ⟨_, h4⟩ | ⟨_, _, h4⟩ | ⟨_, he, k2, h4, _⟩ |
      ⟨_, _, f, fs, rest, hi, his, _, _, h4⟩
    · rw [h4] at h
      simp [ENOMEM] at h
    · rw [h4] at h
      simp at h
    · rw [h4] at h
      simp only [Except.ok.injEq, Prod.mk.injEq] at h
      exact absurd h.1 he
    · rw [h4] at h
      simp only [Except.ok.injEq, Prod.mk.injEq, true_and] at h
      subst h
      refine ⟨k.heap.length,
        [.kzalloc (some k.heap.length), .hid_set_drvdata (some k.heap.length)],
        [.INIT_WORK k.heap.length], [0, 0, 0, 0, 0, 0] :: fs.map hid_field.value, ?_, rfl, rfl⟩
      simp [after_init]

/-- C7, as amended, on the six-value device. -/
theorem attach_order_witness :
    xiaomiff_init env_ok six_value_device =
      .ok (0, { attached_device with
                hdev := { attached_device.hdev with connected := false }
                trace := attached_device.trace.drop 2 }) ∧
    ∃ p pre post payload, attached_device.trace.drop 2 = six_value_device.trace ++ pre ++
        [.set_bit_FF_RUMBLE, .input_ff_create_memless p,
         .store ⟨0, 0⟩ 0 0, .store ⟨0, 0⟩ 1 0, .store ⟨0, 0⟩ 2 0,
         .store ⟨0, 0⟩ 3 0, .store ⟨0, 0⟩ 4 0, .store ⟨0, 0⟩ 5 0,
         .hid_hw_request payload, .hid_hw_wait] ++ post ∧
      payload.head? = some [0, 0, 0, 0, 0, 0] ∧
      attached_device.hdev.inputs.head?.map hid_input.input =
        some { ffbit_rumble := true, ff := some p } :=
  ⟨rfl, attach_order env_ok six_value_device _ rfl⟩

/-- C7, the claim as stated fails: in the successful attach of the six-value
device the capability is advertised (event 4) and the play callback installed
(event 5) before the buffer is zero-filled (events 6 to 11), before the write
of the zeroed report is issued (event 12) and awaited (event 13), and before
the work is initialised (event 14). -/
theorem callback_installed_before_reset :
    xiaomi_probe env_ok six_value_device = .ok (0, attached_device) ∧
    attached_device.trace.indexOf .set_bit_FF_RUMBLE = 4 ∧
    attached_device.trace.indexOf (.input_ff_create_memless 0) = 5 ∧
    attached_device.trace.indexOf (.store ⟨0, 0⟩ 0 0) = 6 ∧
    attached_device.trace.indexOf (.hid_hw_request [[0, 0, 0, 0, 0, 0]]) = 12 ∧
    attached_device.trace.indexOf .hid_hw_wait = 13 ∧
    attached_device.trace.indexOf (.INIT_WORK 0) = 14 := by
  refine ⟨rfl, ?_, ?_, ?_, ?_, ?_, ?_⟩ <;> decide

theorem attached_device_is_active :
    active_session attached_device 0 ⟨0, 0⟩ false [0, 0, 0, 0, 0, 0] :=
  ⟨rfl, { field := [{ value := [0, 0, 0, 0, 0, 0] }] }, { value := [0, 0, 0, 0, 0, 0] },
    rfl, rfl, rfl⟩

/-- C2 on the attached six-value device, for weak 65535 and strong 32768. -/
theorem play_stores_two_bytes_witness :
    attached_device.session_buffer 0 = some [0, 0, 0, 0, 0, 0] ∧
    ∃ k1, xiaomiff_play 0 { strong_magnitude := 32768, weak_magnitude := 65535 }
        attached_device = .ok (0, k1) ∧
      k1.session_buffer 0 = some [((65535 * 255 / 65535 : Nat) : Int),
        ((32768 * 255 / 65535 : Nat) : Int), 0, 0, 0, 0] :=
  ⟨rfl, play_stores_two_bytes attached_device 0
    { strong_magnitude := 32768, weak_magnitude := 65535 } 0 0 0 0 0 0 rfl
    (by decide) (by decide)⟩

/-- C5 on the attached six-value device, for the two calls weak 65535, strong 0
and weak 0, strong 65535: one run, transmitting 0 and 255. -/
theorem plays_coalesce_into_one_run_witness :
    ∃ k1 k2 t payload,
      play_all 0 [{ strong_magnitude := 0, weak_magnitude := 65535 },
                  { strong_magnitude := 65535, weak_magnitude := 0 }] attached_device = .ok k1 ∧
      k1.trace = attached_device.trace ++ t ∧ (∀ ev ∈ t, is_hw_request ev = false) ∧
      run_work 0 k1 = .ok (true, k2) ∧
      k2.trace = k1.trace ++ [.hid_hw_request payload] ∧
      payload[0]? = some [((0 * 255 / 65535 : Nat) : Int), ((65535 * 255 / 65535 : Nat) : Int),
        0, 0, 0, 0] ∧
      run_work 0 k2 = .ok (false, k2) :=
  plays_coalesce_into_one_run attached_device 0 ⟨0, 0⟩ 0 0 0 0 0 0
    [{ strong_magnitude := 0, weak_magnitude := 65535 },
     { strong_magnitude := 65535, weak_magnitude := 0 }]
    attached_device_is_active (by decide) (by decide)

/-! ### The attach entry point and teardown -/

/-- C4, the code at the failing inputs: `xiaomiff_init` returns `-ENODEV`
(-19) on a device with no feature report or a five-value first field,
`-ENOMEM` (-12) when the allocation fails and the error of
`input_ff_create_memless` when that fails, and in each case `xiaomi_probe`
returns 0. -/
theorem probe_discards_init_error :
    (xiaomiff_init env_ok no_report_device).map Prod.fst = .ok (-19) ∧
    (xiaomi_probe env_ok no_report_device).map Prod.fst = .ok 0 ∧
    (xiaomiff_init env_ok five_value_device).map Prod.fst = .ok (-19) ∧
    (xiaomi_probe env_ok five_value_device).map Prod.fst = .ok 0 ∧
    (xiaomiff_init env_no_memory six_value_device).map Prod.fst = .ok (-12) ∧
    (xiaomi_probe env_no_memory six_value_device).map Prod.fst = .ok 0 ∧
    (xiaomiff_init env_no_ff six_value_device).map Prod.fst = .ok (-12) ∧
    (xiaomi_probe env_no_ff six_value_device).map Prod.fst = .ok 0 := by
  refine ⟨rfl, rfl, rfl, rfl, rfl, rfl, rfl, rfl⟩

/-- C9, the code at the failing inputs: after a probe that returned 0 although
validation or allocation failed the driver data is NULL and `xiaomi_remove`
dereferences NULL; after a probe that returned 0 although capability
registration failed the driver data points to the released session and
`xiaomi_remove` uses it after the free. -/
theorem remove_after_failed_attach_faults :
    (xiaomi_probe env_ok no_report_device).map (fun r => (r.1, r.2.hdev.driver_data)) =
      .ok (0, none) ∧
    probe_then_remove env_ok no_report_device = .error .null_deref ∧
    (xiaomi_probe env_no_memory six_value_device).map (fun r => (r.1, r.2.hdev.driver_data)) =
      .ok (0, none) ∧
    probe_then_remove env_no_memory six_value_device = .error .null_deref ∧
    (xiaomi_probe env_no_ff six_value_device).map
      (fun r => (r.1, r.2.hdev.driver_data, r.2.heap)) = .ok (0, some 0, [.freed]) ∧
    probe_then_remove env_no_ff six_value_device = .error .use_after_free := by
  refine ⟨rfl, rfl, rfl, rfl, rfl, rfl⟩

/-- C10, the code at the failing input. On the attached six-value device
`xiaomi_remove` does call `cancel_work_sync` first and `hid_hw_stop` last, but
when `cancel_work_sync` has returned the input layer is still attached (the
play callback of session 0 can be called): a play call made then returns 0 and
queues the work, so a dispatch run does start after the cancellation; and when
the rest of the teardown comes first, `hid_hw_stop` releases the session with
that run still queued, and the run uses the session after the free. -/
theorem play_during_remove_outlives_session :
    xiaomi_probe env_ok six_value_device = .ok (0, attached_device) ∧
    (xiaomi_remove attached_device).map
        (fun k => k.trace.drop attached_device.trace.length) =
      .ok [.cancel_work_sync 0, .hid_set_drvdata none, .hid_hw_close, .hid_hw_stop] ∧
    (attached_device.cancel_work_sync attached_device.hdev.driver_data).map
      Kernel.play_targets = .ok [0] ∧
    ((attached_device.cancel_work_sync attached_device.hdev.driver_data).bind
        (xiaomiff_play 0 { strong_magnitude := 65535, weak_magnitude := 0 })).map
        (fun r => (r.1, (r.2.deref (some 0)).map (fun x => x.work.pending))) =
      .ok (0, .ok true) ∧
    (((attached_device.cancel_work_sync attached_device.hdev.driver_data).bind
        (xiaomiff_play 0 { strong_magnitude := 65535, weak_magnitude := 0 })).bind
        (fun r => run_work 0 r.2)).map Prod.fst = .ok true ∧
    (xiaomi_remove_with_play { strong_magnitude := 65535, weak_magnitude := 0 }
        attached_device).map (fun k => (k.heap, k.play_targets)) = .ok ([.freed], []) ∧
    (xiaomi_remove_with_play { strong_magnitude := 65535, weak_magnitude := 0 }
        attached_device).bind (run_work 0) = .error .use_after_free := by
  refine ⟨rfl, rfl, rfl, rfl, rfl, rfl, rfl⟩

end XiaomiFF
